import Mathlib

set_option maxRecDepth 16384

/-!
Shallow embedding of the gaia-qa-agent repository (src/app.py, src/test_agent.py)
and proofs about its question-enhancement heuristics, its answer-collection and
submission loop, its test helpers, and the cache behaviour the spec describes.
-/

/-! ## Substring containment (Python's `pat in s`) -/

/-- `subAt pat s` : the char list `pat` occurs at the start of `s`. -/
def subAt : List Char → List Char → Bool
  | [], _ => true
  | _ :: _, [] => false
  | a :: as, b :: bs => a == b && subAt as bs

/-- `hasSub pat s` : the char list `pat` occurs somewhere inside `s`. -/
def hasSub (pat : List Char) : List Char → Bool
  | [] => subAt pat []
  | b :: rest => subAt pat (b :: rest) || hasSub pat rest

/-- Python's `pat in s` on strings. -/
def strContains (s pat : String) : Bool :=
  hasSub pat.data s.data

/-- Python's `s.strip()`: drop whitespace from both ends. -/
def pyStrip (s : String) : String :=
  ⟨((s.data.dropWhile Char.isWhitespace).reverse.dropWhile Char.isWhitespace).reverse⟩

/-- Python's `s.lower()` (ASCII case folding, which is all the keywords need). -/
def pyLower (s : String) : String :=
  ⟨s.data.map Char.toLower⟩

/-! ## The canned instructional paragraphs of `BasicAgent.run` (src/app.py).
Each is the exact text the f-string appends after the original question,
including the blank line the f-string places between them. -/

def reversedNote : String :=
  "\n\nNOTE: This text appears to be reversed. Please reverse it first using Python:\nreversed_text = question[::-1] or ''.join(reversed(question))\nThen answer based on the reversed text."

def youtubeNote : String :=
  "\n\nNOTE: This question involves a YouTube video. Use VisitWebpageTool to access the video page,\nor use DuckDuckGoSearchTool to search for information about this video, transcripts, or descriptions."

def imageNote : String :=
  "\n\nNOTE: This question involves an image file (possibly a chess position). \nIf you can access the file, load it with: from PIL import Image; img = Image.open(file_path)\nFor chess positions, identify all pieces (K=King, Q=Queen, R=Rook, B=Bishop, N=Knight, P=Pawn) \nand determine the best move in algebraic notation (e.g., \"e4\", \"Nf3\").\nIf the file is not available, try to use web search to find related information."

def audioNote : String :=
  "\n\nNOTE: This question involves an audio file. Use SpeechToTextTool to transcribe if the file is available.\nListen carefully for specific details like ingredients, page numbers, names, etc.\nExtract only the requested information (e.g., just ingredients, not measurements).\nIf the file is not available, try to use web search to find related information."

def pythonNote : String :=
  "\n\nNOTE: This question involves a Python code file. If you can access the file, read and execute it:\nwith open(file_path, 'r') as f: code = f.read()\nThen execute the code and provide the final output or result.\nIf the file is not available, try to analyze the question logically."

def excelNote : String :=
  "\n\nNOTE: This question involves an Excel/spreadsheet file. If you can access the file, read it with pandas:\ndf = pd.read_excel(file_path) or pd.read_csv(file_path)\nFilter data carefully (e.g., food vs drinks, specific categories) and perform calculations accurately.\nFormat answers as requested (e.g., USD with 2 decimals).\nIf the file is not available, try to use web search to find related data or information."

def mathTableNote : String :=
  "\n\nNOTE: This is a mathematical/logic problem. Use Python to compute step by step.\nFor operation tables, check all pairs systematically.\nFormat answers as requested (comma-separated, alphabetical order, etc.)."

def researchNote : String :=
  "\n\nNOTE: This is a research question. Use DuckDuckGoSearchTool to find information.\nFor Wikipedia questions, search specifically on Wikipedia.\nFor multi-step questions, break them down and search iteratively.\nVerify information from multiple sources when possible."

/-! ## The branch conditions of `BasicAgent.run`, in the order the elif chain
tests them (src/app.py lines 133-200). `q` is the original question and the
keyword checks other than the YouTube one run on `question.lower()`. -/

/-- `question.strip().startswith('.') and len(question) > 20` -/
def isReversedShape (q : String) : Bool :=
  (match (pyStrip q).data with
    | c :: _ => c == '.'
    | [] => false) && decide (q.data.length > 20)

/-- `'youtube.com' in question or 'youtu.be' in question` (on the raw question). -/
def mentionsYouTube (q : String) : Bool :=
  strContains q "youtube.com" || strContains q "youtu.be"

/-- `'image' in ql or 'chess' in ql or 'position' in ql` -/
def mentionsImageChess (ql : String) : Bool :=
  strContains ql "image" || strContains ql "chess" || strContains ql "position"

/-- `'audio' in ql or 'mp3' in ql or 'recording' in ql or 'voice memo' in ql or 'listen' in ql` -/
def mentionsAudio (ql : String) : Bool :=
  strContains ql "audio" || strContains ql "mp3" || strContains ql "recording" ||
    strContains ql "voice memo" || strContains ql "listen"

/-- `'python code' in ql or ('code' in ql and 'python' in ql) or 'numeric output' in ql` -/
def mentionsPythonCode (ql : String) : Bool :=
  strContains ql "python code" || (strContains ql "code" && strContains ql "python") ||
    strContains ql "numeric output"

/-- `'excel' in ql or 'xlsx' in ql or 'spreadsheet' in ql or ('sales' in ql and 'file' in ql)` -/
def mentionsExcel (ql : String) : Bool :=
  strContains ql "excel" || strContains ql "xlsx" || strContains ql "spreadsheet" ||
    (strContains ql "sales" && strContains ql "file")

/-- `'table' in ql and ('operation' in ql or '*' in question) or 'commutative' in ql`
(Python's `and` binds tighter than `or`; the `'*'` check runs on the raw question). -/
def mentionsOperationTable (q ql : String) : Bool :=
  (strContains ql "table" && (strContains ql "operation" || strContains q "*")) ||
    strContains ql "commutative"

/-- `'wikipedia' in ql or 'nominated' in ql or 'paper' in ql or 'article' in ql` -/
def mentionsResearch (ql : String) : Bool :=
  strContains ql "wikipedia" || strContains ql "nominated" || strContains ql "paper" ||
    strContains ql "article"

/-- The question-enhancement logic of `BasicAgent.run` (src/app.py lines 128-200):
the first matching branch of the elif chain appends its canned paragraph after
the original question; with no match the question passes through unchanged. -/
def enhanceQuestion (question : String) : String :=
  let ql := pyLower question
  if isReversedShape question then question ++ reversedNote
  else if mentionsYouTube question then question ++ youtubeNote
  else if mentionsImageChess ql then question ++ imageNote
  else if mentionsAudio ql then question ++ audioNote
  else if mentionsPythonCode ql then question ++ pythonNote
  else if mentionsExcel ql then question ++ excelNote
  else if mentionsOperationTable question ql then question ++ mathTableNote
  else if mentionsResearch ql then question ++ researchNote
  else question

namespace BasicAgent

/-- `BasicAgent.run` (src/app.py lines 120-203): enhance the question, then hand
it to the opaque `CodeAgent` runtime. The runtime is modelled as a function from
the final prompt string to an answer (`Except` carries a raised exception). -/
def run (runtime : String → Except String String) (question : String) :
    Except String String :=
  runtime (enhanceQuestion question)

/-- `BasicAgent.__call__` (src/app.py lines 110-118): `return self.run(question)`. -/
def call (runtime : String → Except String String) (question : String) :
    Except String String :=
  run runtime question

end BasicAgent

/-! ## `run_and_submit_all` (src/app.py lines 205-324) -/

/-- One element of the fetched questions list: `item.get(...)` returns `none`
when the key is missing. -/
structure QItem where
  taskId : Option String
  question : Option String
  fileName : Option String
deriving DecidableEq, Repr

/-- One element of `answers_payload`. -/
structure AnswerRec where
  taskId : String
  submittedAnswer : String
deriving DecidableEq, Repr

/-- One element of `results_log`. -/
structure LogRow where
  taskId : String
  question : String
  submittedAnswer : String
deriving DecidableEq, Repr

/-- One iteration of the answer-collection loop (src/app.py lines 259-272):
skip items whose `task_id` is falsy or whose `question` is missing; a normal
agent return extends both `answers_payload` and `results_log`; a raised
exception extends `results_log` alone, with the `AGENT ERROR:` prefix.
`acc` holds the records of the remaining items. -/
def processItem (agentFn : String → Except String String) (item : QItem)
    (acc : List AnswerRec × List LogRow) : List AnswerRec × List LogRow :=
  match item.taskId, item.question with
  | some tid, some q =>
    if tid.data.isEmpty then acc
    else
      match agentFn q with
      | .ok a => (⟨tid, a⟩ :: acc.1, ⟨tid, q, a⟩ :: acc.2)
      | .error e => (acc.1, ⟨tid, q, "AGENT ERROR: " ++ e⟩ :: acc.2)
  | _, _ => acc

/-- The whole answer-collection loop: the state after the loop has processed
the first `k` fetched items is `processItems agentFn (items.take k)`. -/
def processItems (agentFn : String → Except String String) :
    List QItem → List AnswerRec × List LogRow
  | [] => ([], [])
  | item :: rest => processItem agentFn item (processItems agentFn rest)

/-- Python's `None` rendered by an f-string. -/
def pyOptStr : Option String → String
  | some s => s
  | none => "None"

/-- `agent_code = f"https://huggingface.co/spaces/.../tree/main"` with
`space_id = os.getenv("SPACE_ID")` (src/app.py lines 211, 231). -/
def agentCodeUrl (spaceId : Option String) : String :=
  "https://huggingface.co/spaces/" ++ pyOptStr spaceId ++ "/tree/main"

/-- The body posted to the submit endpoint (src/app.py line 279). -/
structure Submission where
  username : String
  agent_code : String
  answers : List AnswerRec
deriving DecidableEq, Repr

/-- The JSON fields of a successful submit response that the status string
reads; each is `none` when the response omits the key. -/
structure ScoreInfo where
  username : Option String
  score : Option String
  correctCount : Option String
  totalAttempted : Option String
  message : Option String
deriving DecidableEq, Repr

/-- The `final_status` string built from a successful submit response
(src/app.py lines 289-295), with each field's `result_data.get` default. -/
def submissionSuccessStatus (info : ScoreInfo) : String :=
  "Submission Successful!\nUser: " ++ pyOptStr info.username ++
    "\nOverall Score: " ++ info.score.getD "N/A" ++ "% (" ++
    info.correctCount.getD "?" ++ "/" ++ info.totalAttempted.getD "?" ++
    " correct)\nMessage: " ++ info.message.getD "No message received."

/-- How the questions fetch can fail (src/app.py lines 244-253): a request
exception, a JSON decode error, or any other exception. -/
inductive FetchErr
  | reqExc (msg : String)
  | jsonErr (msg : String)
  | other (msg : String)
deriving DecidableEq, Repr

/-- The error status string each fetch-failure branch returns. -/
def fetchErrMsg : FetchErr → String
  | .reqExc m => "Error fetching questions: " ++ m
  | .jsonErr m => "Error decoding server response for questions: " ++ m
  | .other m => "An unexpected error occurred fetching questions: " ++ m

/-- How the submit POST can end (src/app.py lines 285-324). -/
inductive SubmitOutcome
  | ok (info : ScoreInfo)
  | httpError (detail : String)
  | timeout
  | netError (msg : String)
  | otherExc (msg : String)
deriving DecidableEq, Repr

/-- What one call of `run_and_submit_all` produces and does: the returned
status string and results table, how many times it issued the questions GET,
how many times the agent was invoked, and every body it POSTed to the submit
endpoint. -/
structure RunOutcome where
  status : String
  table : Option (List LogRow)
  fetchAttempts : Nat
  agentRunCalls : Nat
  submitPosts : List Submission
deriving Repr

/-- Number of agent invocations the loop makes: one per item that is not
skipped (src/app.py lines 260-267). -/
def agentCallCount (items : List QItem) : Nat :=
  items.countP (fun it =>
    (match it.taskId with
      | some tid => !tid.data.isEmpty
      | none => false) && it.question.isSome)

/-- `run_and_submit_all` (src/app.py lines 205-324) over explicit oracles:
`profile` the OAuth profile (its username), `spaceId` the SPACE_ID env var,
`agentInit` whether `BasicAgent()` constructs, `fetchResult` what the single
questions GET yields (a failure or the decoded list), `runtime` the opaque
CodeAgent, `submitOutcome` what the submit POST yields when it is made. -/
def runAndSubmitAll (profile : Option String) (spaceId : Option String)
    (agentInit : Except String Unit)
    (fetchResult : Except FetchErr (List QItem))
    (runtime : String → Except String String)
    (submitOutcome : SubmitOutcome) : RunOutcome :=
  match profile with
  | none => ⟨"Please Login to Hugging Face with the button.", none, 0, 0, []⟩
  | some username =>
    match agentInit with
    | .error e => ⟨"Error initializing agent: " ++ e, none, 0, 0, []⟩
    | .ok _ =>
      match fetchResult with
      | .error fe => ⟨fetchErrMsg fe, none, 1, 0, []⟩
      | .ok items =>
        if items.isEmpty then
          ⟨"Fetched questions list is empty or invalid format.", none, 1, 0, []⟩
        else
          let pr := processItems (BasicAgent.call runtime) items
          if pr.1.isEmpty then
            ⟨"Agent did not produce any answers to submit.", some pr.2, 1,
              agentCallCount items, []⟩
          else
            let sub : Submission :=
              ⟨pyStrip username, agentCodeUrl spaceId, pr.1⟩
            match submitOutcome with
            | .ok info =>
              ⟨submissionSuccessStatus info, some pr.2, 1, agentCallCount items, [sub]⟩
            | .httpError d =>
              ⟨"Submission Failed: " ++ d, some pr.2, 1, agentCallCount items, [sub]⟩
            | .timeout =>
              ⟨"Submission Failed: The request timed out.", some pr.2, 1,
                agentCallCount items, [sub]⟩
            | .netError m =>
              ⟨"Submission Failed: Network error - " ++ m, some pr.2, 1,
                agentCallCount items, [sub]⟩
            | .otherExc m =>
              ⟨"An unexpected error occurred during submission: " ++ m, some pr.2, 1,
                agentCallCount items, [sub]⟩

/-! ## The test helpers (src/test_agent.py) -/

/-- What the file-store GET yields: a response with its status code and byte
content, or a raised exception. -/
inductive HttpOutcome
  | resp (status : Nat) (content : List Nat)
  | exc (msg : String)
deriving DecidableEq, Repr

/-- `test_fetch_file` (src/test_agent.py lines 53-71): a falsy `file_name`
returns None before any request; then status 200 returns the content, 404 and
every other status return None, as does a raised exception. -/
def test_fetch_file (fileName : String) (outcome : HttpOutcome) :
    Option (List Nat) :=
  if fileName.data.isEmpty then none
  else
    match outcome with
    | .resp status content => if status == 200 then some content else none
    | .exc _ => none

/-- The parameters of `BasicAgent.run` besides `self` (src/app.py line 120). -/
def runParamNames : List String := ["question"]

/-- Python call binding for a plain method without *args or **kwargs: the
positional arguments must fit, and every keyword must name a parameter that is
not already bound positionally; otherwise the call raises TypeError before the
body runs. -/
def bindCall (params : List String) (nPos : Nat) (kwargs : List String) : Bool :=
  decide (nPos ≤ params.length) &&
    kwargs.all (fun k => params.contains k && !(params.take nPos).contains k)

/-- The call `agent.run(question_text, file_path=file_path)` of
src/test_agent.py line 121: one positional argument plus the keyword
`file_path`. When the call binds, the body of `BasicAgent.run` runs; when it
does not, Python raises a TypeError naming the unexpected keyword. -/
def callRunWithFileKwarg (runtime : String → Except String String)
    (q : String) : Except String String :=
  if bindCall runParamNames 1 ["file_path"] then BasicAgent.run runtime q
  else Except.error "run() got an unexpected keyword argument file_path"

/-- One entry of the `results` list of `test_agent_on_questions`. -/
structure TestResult where
  taskId : Option String
  question : Option String
  answer : String
  success : Bool
deriving DecidableEq, Repr

/-- One iteration of the loop of `test_agent_on_questions`
(src/test_agent.py lines 97-144): run the agent call, record the answer on
success and `ERROR: ...` with `success = False` on an exception. -/
def testProcessItem (runtime : String → Except String String) (item : QItem) :
    TestResult :=
  match callRunWithFileKwarg runtime (item.question.getD "") with
  | .ok a => ⟨item.taskId, item.question, a, true⟩
  | .error e => ⟨item.taskId, item.question, "ERROR: " ++ e, false⟩

/-- `test_agent_on_questions` (src/test_agent.py lines 73-155): the results
collected over the first `numQuestions` fetched questions. -/
def test_agent_on_questions (runtime : String → Except String String)
    (questions : List QItem) (numQuestions : Nat) : List TestResult :=
  (questions.take numQuestions).map (testProcessItem runtime)

/-! ## The cache of the CLI batch/cache variant -/

/-- Modelled from the spec: the CLI batch/cache variant of the script is not
among the repository files provided (src/ holds only app.py and
test_agent.py). Per the spec it keeps "a JSON file used as a crude key-value
cache keyed by task id", an "unbounded append-only dictionary flushed to disk
after every item", whose disk form maps each task id to its answer. `mem` is
the in-memory dictionary as a key-value list in insertion order; `disk` is the
JSON file's contents after the last flush, `none` before any flush. -/
structure CacheState where
  mem : List (String × String)
  disk : Option (List (String × String))
deriving DecidableEq, Repr

/-- Dictionary update `cache[task_id] = answer`: overwrite the entry in place
when the key is present, append it otherwise. -/
def cacheSet : List (String × String) → String → String → List (String × String)
  | [], k, v => [(k, v)]
  | p :: rest, k, v => if p.1 == k then (k, v) :: rest else p :: cacheSet rest k v

/-- Dictionary read `cache.get(task_id)`. -/
def cacheLookup : List (String × String) → String → Option String
  | [], _ => none
  | p :: rest, k => if p.1 == k then some p.2 else cacheLookup rest k

/-- Modelled from the spec: the batch variant's loop over the fetched items,
each a (task id, question) pair. For each item it obtains the agent's answer,
stores it in the cache under the task id, and writes the whole cache back to
the JSON file — a flush after every item, never removing an entry. -/
def processWithCache (agentFn : String → String) :
    List (String × String) → CacheState → CacheState
  | [], st => st
  | (tid, q) :: rest, st =>
    let mem2 := cacheSet st.mem tid (agentFn q)
    processWithCache agentFn rest ⟨mem2, some mem2⟩

/-- The relation between `answers_payload` and `results_log` that the
answer-collection loop maintains: payload rows (as (task id, answer) pairs)
form a sublist of the log rows in fetch order, every payload row stems from an
agent call that returned normally and has a log row with the same fields, every
log row is either a normal return or an `AGENT ERROR:` row, and the payload is
never longer than the log. -/
def PayloadLogInv (agentFn : String → Except String String)
    (pr : List AnswerRec × List LogRow) : Prop :=
  (pr.1.map (fun p => (p.taskId, p.submittedAnswer))).Sublist
    (pr.2.map (fun r => (r.taskId, r.submittedAnswer))) ∧
  (∀ p ∈ pr.1, ∃ r ∈ pr.2,
    r.taskId = p.taskId ∧ r.submittedAnswer = p.submittedAnswer ∧
    agentFn r.question = Except.ok p.submittedAnswer) ∧
  (∀ r ∈ pr.2,
    agentFn r.question = Except.ok r.submittedAnswer ∨
    ∃ e, agentFn r.question = Except.error e ∧
      r.submittedAnswer = "AGENT ERROR: " ++ e) ∧
  pr.1.length ≤ pr.2.length

/-! ## Theorems -/

/-- Helper: one loop iteration never drops a payload record. -/
theorem processItem_fst_sublist (agentFn : String → Except String String)
    (it : QItem) (acc : List AnswerRec × List LogRow) :
    acc.1.Sublist (processItem agentFn it acc).1 := by
  obtain ⟨tidO, qO, fnO⟩ := it
  rcases tidO with _ | tid <;> rcases qO with _ | q <;>
    simp only [processItem] <;> try exact List.Sublist.refl _
  cases hemp : tid.data.isEmpty
  · cases hagent : agentFn q <;> simp [hemp, hagent]
  · simp [hemp]

/-- Helper: one loop iteration never drops a log record. -/
theorem processItem_snd_sublist (agentFn : String → Except String String)
    (it : QItem) (acc : List AnswerRec × List LogRow) :
    acc.2.Sublist (processItem agentFn it acc).2 := by
  obtain ⟨tidO, qO, fnO⟩ := it
  rcases tidO with _ | tid <;> rcases qO with _ | q <;>
    simp only [processItem] <;> try exact List.Sublist.refl _
  cases hemp : tid.data.isEmpty
  · cases hagent : agentFn q <;> simp [hemp, hagent]
  · simp [hemp]

/-- Helper: one loop iteration preserves the payload/log invariant. -/
theorem processItem_keeps_inv (agentFn : String → Except String String)
    (it : QItem) (acc : List AnswerRec × List LogRow)
    (h : PayloadLogInv agentFn acc) :
    PayloadLogInv agentFn (processItem agentFn it acc) := by
  obtain ⟨h1, h2, h3, h4⟩ := h
  obtain ⟨tidO, qO, fnO⟩ := it
  rcases tidO with _ | tid <;> rcases qO with _ | q <;>
    simp only [processItem] <;> try exact ⟨h1, h2, h3, h4⟩
  cases hemp : tid.data.isEmpty
  · cases hagent : agentFn q with
    | error e =>
      simp only [hemp, Bool.false_eq_true, if_false]
      refine ⟨h1.cons _, ?_, ?_, h4.trans (Nat.le_succ _)⟩
      · intro p hp
        obtain ⟨r, hr, hprops⟩ := h2 p hp
        exact ⟨r, List.mem_cons_of_mem _ hr, hprops⟩
      · intro r hr
        rcases List.mem_cons.mp hr with rfl | hr'
        · exact Or.inr ⟨e, hagent, rfl⟩
        · exact h3 r hr'
    | ok a =>
      simp only [hemp, Bool.false_eq_true, if_false]
      refine ⟨?_, ?_, ?_, ?_⟩
      · simpa using h1.cons₂ (tid, a)
      · intro p hp
        rcases List.mem_cons.mp hp with rfl | hp'
        · exact ⟨⟨tid, q, a⟩, List.mem_cons_self _ _, rfl, rfl, hagent⟩
        · obtain ⟨r, hr, hprops⟩ := h2 p hp'
          exact ⟨r, List.mem_cons_of_mem _ hr, hprops⟩
      · intro r hr
        rcases List.mem_cons.mp hr with rfl | hr'
        · exact Or.inl hagent
        · exact h3 r hr'
      · simpa using Nat.succ_le_succ h4
  · simpa [hemp] using ⟨h1, h2, h3, h4⟩

/-- C10: throughout the answer-collection loop of `run_and_submit_all` the
invariant holds that every `answers_payload` entry stems from an agent run that
returned normally and appears in `results_log` with the same task id, question
and answer in fetch order, rows for raised runs appear only in `results_log`
with the `AGENT ERROR:` prefix, and the payload is never longer than the log.
The loop's state after the first `k` items is `processItems agentFn
(items.take k)`, so quantifying over all item lists covers every step. -/
theorem processItems_payload_log_invariant
    (agentFn : String → Except String String) (items : List QItem) :
    PayloadLogInv agentFn (processItems agentFn items) := by
  induction items with
  | nil =>
    refine ⟨List.Sublist.refl _, ?_, ?_, Nat.le.refl⟩ <;> intro r hr <;> cases hr
  | cons it rest ih => exact processItem_keeps_inv agentFn it _ ih

/-- C4 counterexample: an item of the fetched list whose `task_id` is missing
is skipped, so no `answers_payload` record exists for it even though the agent
answers every question it is given: with two fetched items, only the second
(valid) one reaches the payload. -/
theorem invalid_item_skipped_cex :
    processItems (fun _ => Except.ok "42")
        [⟨none, some "what is 2+2?", none⟩, ⟨some "t1", some "what is 3+3?", none⟩] =
      ([⟨"t1", "42"⟩], [⟨"t1", "what is 3+3?", "42"⟩]) := by decide

/-- C4 (amended): every fetched item with a truthy `task_id` and a present
question whose agent run returns normally has its answer delegated, collected,
and recorded as a (task id, submitted answer) payload record, and logged; items
with a missing or empty `task_id` or a missing question are skipped, and items
whose agent run raises are logged but not submitted. -/
theorem processItems_collects_valid_answers
    (agentFn : String → Except String String) (items : List QItem)
    (item : QItem) (tid q a : String) (hmem : item ∈ items)
    (htid : item.taskId = some tid) (hne : tid.data.isEmpty = false)
    (hq : item.question = some q) (hok : agentFn q = Except.ok a) :
    (⟨tid, a⟩ : AnswerRec) ∈ (processItems agentFn items).1 ∧
    (⟨tid, q, a⟩ : LogRow) ∈ (processItems agentFn items).2 := by
  induction items with
  | nil => cases hmem
  | cons it rest ih =>
    rcases List.mem_cons.mp hmem with rfl | hmem'
    · simp only [processItems, processItem, htid, hq, hne, Bool.false_eq_true,
        if_false, hok]
      exact ⟨List.mem_cons_self _ _, List.mem_cons_self _ _⟩
    · obtain ⟨m1, m2⟩ := ih hmem'
      exact ⟨(processItem_fst_sublist agentFn it _).mem m1,
        (processItem_snd_sublist agentFn it _).mem m2⟩

/-- C4 witness: at a concrete two-item list the valid item's record is in the
payload and the log. -/
theorem processItems_collects_valid_answers_witness :
    (⟨"t1", "42"⟩ : AnswerRec) ∈
      (processItems (fun _ => Except.ok "42")
        [⟨none, some "what is 2+2?", none⟩, ⟨some "t1", some "what is 3+3?", none⟩]).1 ∧
    (⟨"t1", "what is 3+3?", "42"⟩ : LogRow) ∈
      (processItems (fun _ => Except.ok "42")
        [⟨none, some "what is 2+2?", none⟩, ⟨some "t1", some "what is 3+3?", none⟩]).2 :=
  processItems_collects_valid_answers (fun _ => Except.ok "42")
    [⟨none, some "what is 2+2?", none⟩, ⟨some "t1", some "what is 3+3?", none⟩]
    ⟨some "t1", some "what is 3+3?", none⟩ "t1" "what is 3+3?" "42"
    (by decide) rfl rfl rfl rfl

/-- C8: `BasicAgent.__call__` returns exactly what `BasicAgent.run` returns on
the same question, for every runtime and every question: the public call
interface is one question string in, one answer out. -/
theorem call_eq_run (runtime : String → Except String String) (q : String) :
    BasicAgent.call runtime q = BasicAgent.run runtime q := rfl

/-- C9: the call `agent.run(question_text, file_path=file_path)` of
`test_agent_on_questions` cannot bind (`BasicAgent.run` has no `file_path`
parameter), so every processed question is recorded as a failure whose answer
carries the `ERROR:` prefix, whatever the runtime would have answered. -/
theorem test_agent_on_questions_all_fail
    (runtime : String → Except String String) (questions : List QItem) (n : Nat) :
    bindCall runParamNames 1 ["file_path"] = false ∧
    ∀ r ∈ test_agent_on_questions runtime questions n,
      r.success = false ∧ ∃ e, r.answer = "ERROR: " ++ e := by
  refine ⟨by decide, ?_⟩
  intro r hr
  obtain ⟨item, _, rfl⟩ := List.mem_map.mp hr
  exact ⟨rfl, "run() got an unexpected keyword argument file_path", rfl⟩

/-- C1 counterexample: the canned paragraph is not prepended. For a question
matching the audio heuristic, the string handed to the agent runtime is the
question followed by the paragraph, not the paragraph followed by the
question. -/
theorem enhance_prepend_claim_cex :
    mentionsAudio (pyLower "please listen to the attached audio") = true ∧
    enhanceQuestion "please listen to the attached audio" =
      "please listen to the attached audio" ++ audioNote ∧
    enhanceQuestion "please listen to the attached audio" ≠
      audioNote ++ "please listen to the attached audio" := by
  exact ⟨by decide, by decide, by decide⟩

/-- C1 (amended): for every question matching one of the keyword heuristics,
the first matching branch of the elif chain appends its canned instructional
paragraph after the question: the string passed to the agent runtime is the
original question text followed by the canned paragraph; with no match the
question passes through unchanged. -/
theorem enhanceQuestion_appends_matching_note (q : String) :
    (isReversedShape q = true → enhanceQuestion q = q ++ reversedNote) ∧
    (isReversedShape q = false → mentionsYouTube q = true →
      enhanceQuestion q = q ++ youtubeNote) ∧
    (isReversedShape q = false → mentionsYouTube q = false →
      mentionsImageChess (pyLower q) = true →
      enhanceQuestion q = q ++ imageNote) ∧
    (isReversedShape q = false → mentionsYouTube q = false →
      mentionsImageChess (pyLower q) = false → mentionsAudio (pyLower q) = true →
      enhanceQuestion q = q ++ audioNote) ∧
    (isReversedShape q = false → mentionsYouTube q = false →
      mentionsImageChess (pyLower q) = false → mentionsAudio (pyLower q) = false →
      mentionsPythonCode (pyLower q) = true →
      enhanceQuestion q = q ++ pythonNote) ∧
    (isReversedShape q = false → mentionsYouTube q = false →
      mentionsImageChess (pyLower q) = false → mentionsAudio (pyLower q) = false →
      mentionsPythonCode (pyLower q) = false → mentionsExcel (pyLower q) = true →
      enhanceQuestion q = q ++ excelNote) ∧
    (isReversedShape q = false → mentionsYouTube q = false →
      mentionsImageChess (pyLower q) = false → mentionsAudio (pyLower q) = false →
      mentionsPythonCode (pyLower q) = false → mentionsExcel (pyLower q) = false →
      mentionsOperationTable q (pyLower q) = true →
      enhanceQuestion q = q ++ mathTableNote) ∧
    (isReversedShape q = false → mentionsYouTube q = false →
      mentionsImageChess (pyLower q) = false → mentionsAudio (pyLower q) = false →
      mentionsPythonCode (pyLower q) = false → mentionsExcel (pyLower q) = false →
      mentionsOperationTable q (pyLower q) = false →
      mentionsResearch (pyLower q) = true →
      enhanceQuestion q = q ++ researchNote) ∧
    (isReversedShape q = false → mentionsYouTube q = false →
      mentionsImageChess (pyLower q) = false → mentionsAudio (pyLower q) = false →
      mentionsPythonCode (pyLower q) = false → mentionsExcel (pyLower q) = false →
      mentionsOperationTable q (pyLower q) = false →
      mentionsResearch (pyLower q) = false →
      enhanceQuestion q = q) := by
  refine ⟨?_, ?_, ?_, ?_, ?_, ?_, ?_, ?_, ?_⟩ <;>
    · intros
      simp [enhanceQuestion, *]

/-- C3 counterexample: a question whose lowercased text contains `audio` but
also an earlier-checked keyword (`image`) gets the image paragraph, not the
audio one, because the elif chain stops at the first match. -/
theorem audio_keyword_shadowed_cex :
    mentionsAudio (pyLower "Where on the image is the audio icon?") = true ∧
    enhanceQuestion "Where on the image is the audio icon?" =
      "Where on the image is the audio icon?" ++ imageNote ∧
    enhanceQuestion "Where on the image is the audio icon?" ≠
      "Where on the image is the audio icon?" ++ audioNote := by
  exact ⟨by decide, by decide, by decide⟩

/-- C3 (amended): for every question whose lowercased text contains one of the
audio keywords and which matches none of the three earlier heuristics
(reversed-text shape, YouTube, image/chess/position), `BasicAgent.run` adds
the canned audio-instruction paragraph to the question before passing it to
the agent runtime. -/
theorem enhanceQuestion_audio_branch (q : String)
    (hrev : isReversedShape q = false) (hyt : mentionsYouTube q = false)
    (himg : mentionsImageChess (pyLower q) = false)
    (haud : mentionsAudio (pyLower q) = true) :
    enhanceQuestion q = q ++ audioNote := by
  simp [enhanceQuestion, hrev, hyt, himg, haud]

/-- C3 witness: the audio branch fires on a concrete audio question. -/
theorem enhanceQuestion_audio_branch_witness :
    enhanceQuestion "please transcribe this voice memo" =
      "please transcribe this voice memo" ++ audioNote :=
  enhanceQuestion_audio_branch "please transcribe this voice memo"
    (by decide) (by decide) (by decide) (by decide)

/-- C5: when `run_and_submit_all` reaches the submit step, the one body it
POSTs is exactly the record with the three fields `username` (the logged-in
user's name, stripped of surrounding whitespace), `agent_code` (the space
repository URL) and `answers` (the collected payload records), and on a
successful POST the status string reads the score out of the response. -/
theorem runAndSubmitAll_submission_body (username : String)
    (spaceId : Option String) (fetched : List QItem)
    (runtime : String → Except String String) (submitOutcome : SubmitOutcome)
    (hne : fetched.isEmpty = false)
    (hpay : (processItems (BasicAgent.call runtime) fetched).1.isEmpty = false) :
    (runAndSubmitAll (some username) spaceId (Except.ok ()) (Except.ok fetched)
        runtime submitOutcome).submitPosts =
      [⟨pyStrip username, agentCodeUrl spaceId,
        (processItems (BasicAgent.call runtime) fetched).1⟩] ∧
    (∀ info, submitOutcome = SubmitOutcome.ok info →
      (runAndSubmitAll (some username) spaceId (Except.ok ()) (Except.ok fetched)
          runtime submitOutcome).status = submissionSuccessStatus info) := by
  cases submitOutcome <;> simp [runAndSubmitAll, hne, hpay]

/-- C5 witness: the submission body at a concrete run, with a successful
submit response whose score the status string reports. -/
theorem runAndSubmitAll_submission_body_witness :
    (runAndSubmitAll (some " alice ") (some "sid") (Except.ok ())
        (Except.ok [⟨some "t1", some "hi", none⟩])
        (fun _ => (Except.ok "4" : Except String String))
        (SubmitOutcome.ok ⟨some "alice", some "30.0", some "6", some "20", none⟩)).submitPosts =
      [⟨pyStrip " alice ", agentCodeUrl (some "sid"),
        (processItems (BasicAgent.call (fun _ => (Except.ok "4" : Except String String)))
          [⟨some "t1", some "hi", none⟩]).1⟩] ∧
    (∀ info,
      SubmitOutcome.ok ⟨some "alice", some "30.0", some "6", some "20", none⟩ =
        SubmitOutcome.ok info →
      (runAndSubmitAll (some " alice ") (some "sid") (Except.ok ())
          (Except.ok [⟨some "t1", some "hi", none⟩])
          (fun _ => (Except.ok "4" : Except String String))
          (SubmitOutcome.ok ⟨some "alice", some "30.0", some "6", some "20", none⟩)).status =
        submissionSuccessStatus info) :=
  runAndSubmitAll_submission_body " alice " (some "sid")
    [⟨some "t1", some "hi", none⟩] (fun _ => (Except.ok "4" : Except String String))
    (SubmitOutcome.ok ⟨some "alice", some "30.0", some "6", some "20", none⟩)
    (by decide) (by decide)

/-- C6: when the questions fetch fails (request exception, JSON decode error,
other exception) or yields an empty list, `run_and_submit_all` returns the
corresponding error-message string paired with `None`: the fetch is attempted
exactly once with no retry, the agent runs on no question, and the submit
endpoint is never contacted. -/
theorem runAndSubmitAll_fetch_failure (username : String)
    (spaceId : Option String) (fetchResult : Except FetchErr (List QItem))
    (runtime : String → Except String String) (submitOutcome : SubmitOutcome)
    (hfail : (∃ fe, fetchResult = Except.error fe) ∨ fetchResult = Except.ok []) :
    (runAndSubmitAll (some username) spaceId (Except.ok ()) fetchResult runtime
        submitOutcome).table = none ∧
    (runAndSubmitAll (some username) spaceId (Except.ok ()) fetchResult runtime
        submitOutcome).fetchAttempts = 1 ∧
    (runAndSubmitAll (some username) spaceId (Except.ok ()) fetchResult runtime
        submitOutcome).agentRunCalls = 0 ∧
    (runAndSubmitAll (some username) spaceId (Except.ok ()) fetchResult runtime
        submitOutcome).submitPosts = [] ∧
    (∀ fe, fetchResult = Except.error fe →
      (runAndSubmitAll (some username) spaceId (Except.ok ()) fetchResult runtime
          submitOutcome).status = fetchErrMsg fe) ∧
    (fetchResult = Except.ok [] →
      (runAndSubmitAll (some username) spaceId (Except.ok ()) fetchResult runtime
          submitOutcome).status =
        "Fetched questions list is empty or invalid format.") := by
  rcases hfail with ⟨fe, rfl⟩ | rfl <;> simp [runAndSubmitAll]

/-- C6 witness: a concrete failed fetch (a request exception) yields the error
status, no table, one fetch attempt, no agent run and no submit POST. -/
theorem runAndSubmitAll_fetch_failure_witness :
    (runAndSubmitAll (some "bob") none (Except.ok ())
        (Except.error (FetchErr.reqExc "connection timed out"))
        (fun _ => (Except.ok "x" : Except String String)) SubmitOutcome.timeout).table =
      none ∧
    (runAndSubmitAll (some "bob") none (Except.ok ())
        (Except.error (FetchErr.reqExc "connection timed out"))
        (fun _ => (Except.ok "x" : Except String String))
        SubmitOutcome.timeout).fetchAttempts = 1 ∧
    (runAndSubmitAll (some "bob") none (Except.ok ())
        (Except.error (FetchErr.reqExc "connection timed out"))
        (fun _ => (Except.ok "x" : Except String String))
        SubmitOutcome.timeout).agentRunCalls = 0 ∧
    (runAndSubmitAll (some "bob") none (Except.ok ())
        (Except.error (FetchErr.reqExc "connection timed out"))
        (fun _ => (Except.ok "x" : Except String String))
        SubmitOutcome.timeout).submitPosts = [] ∧
    (∀ fe, (Except.error (FetchErr.reqExc "connection timed out") :
        Except FetchErr (List QItem)) = Except.error fe →
      (runAndSubmitAll (some "bob") none (Except.ok ())
          (Except.error (FetchErr.reqExc "connection timed out"))
          (fun _ => (Except.ok "x" : Except String String))
          SubmitOutcome.timeout).status = fetchErrMsg fe) ∧
    ((Except.error (FetchErr.reqExc "connection timed out") :
        Except FetchErr (List QItem)) = Except.ok [] →
      (runAndSubmitAll (some "bob") none (Except.ok ())
          (Except.error (FetchErr.reqExc "connection timed out"))
          (fun _ => (Except.ok "x" : Except String String))
          SubmitOutcome.timeout).status =
        "Fetched questions list is empty or invalid format.") :=
  runAndSubmitAll_fetch_failure "bob" none
    (Except.error (FetchErr.reqExc "connection timed out"))
    (fun _ => (Except.ok "x" : Except String String)) SubmitOutcome.timeout
    (Or.inl ⟨FetchErr.reqExc "connection timed out", rfl⟩)

/-- C7: for a task with a non-empty file name, a 404 from the file store makes
`test_fetch_file` return None (missing file, not an error), and it returns the
response content only when the status is 200. -/
theorem test_fetch_file_spec (fileName : String) (outcome : HttpOutcome)
    (hfn : fileName.data.isEmpty = false) :
    (∀ c, outcome = HttpOutcome.resp 404 c →
      test_fetch_file fileName outcome = none) ∧
    (∀ b, test_fetch_file fileName outcome = some b →
      outcome = HttpOutcome.resp 200 b) := by
  constructor
  · rintro c rfl
    simp [test_fetch_file, hfn]
  · intro b hb
    rcases outcome with ⟨status, content⟩ | msg
    · simp only [test_fetch_file, hfn, Bool.false_eq_true, if_false] at hb
      rcases h200 : status == 200 with _ | _
      · simp [h200] at hb
      · obtain rfl : status = 200 := by simpa using h200
        simp only [h200, if_true] at hb
        obtain rfl := Option.some.inj hb
        rfl
    · simp [test_fetch_file, hfn] at hb

/-- C7 witness: with file name `menu.mp3`, a 404 response yields None, and the
only-200 direction holds vacuously at that response. -/
theorem test_fetch_file_spec_witness :
    (∀ c, HttpOutcome.resp 404 [7, 7] = HttpOutcome.resp 404 c →
      test_fetch_file "menu.mp3" (HttpOutcome.resp 404 [7, 7]) = none) ∧
    (∀ b, test_fetch_file "menu.mp3" (HttpOutcome.resp 404 [7, 7]) = some b →
      HttpOutcome.resp 404 [7, 7] = HttpOutcome.resp 200 b) :=
  test_fetch_file_spec "menu.mp3" (HttpOutcome.resp 404 [7, 7]) (by decide)

/-- Helper: a dictionary write is read back. -/
theorem cacheLookup_cacheSet_self (c : List (String × String)) (k v : String) :
    cacheLookup (cacheSet c k v) k = some v := by
  induction c with
  | nil => simp [cacheSet, cacheLookup]
  | cons p rest ih =>
    by_cases h : p.1 == k
    · simp [cacheSet, cacheLookup, h]
    · simp only [cacheSet, h, Bool.false_eq_true, if_false, cacheLookup, ih]

/-- Helper: a dictionary write never removes a key. -/
theorem cacheLookup_cacheSet_isSome (c : List (String × String))
    (k v q : String) (h : (cacheLookup c q).isSome = true) :
    (cacheLookup (cacheSet c k v) q).isSome = true := by
  induction c with
  | nil => simp [cacheLookup] at h
  | cons p rest ih =>
    by_cases hk : p.1 == k
    · by_cases hq : k == q
      · simp [cacheSet, cacheLookup, hk, hq]
      · have hpq : (p.1 == q) = false := by
          have h1 : p.1 = k := by simpa using hk
          have h2 : ¬ k = q := by simpa using hq
          simp [h1, h2]
        simp only [cacheLookup, hpq, Bool.false_eq_true, if_false] at h
        simp [cacheSet, cacheLookup, hk, hq, h]
    · by_cases hpq : p.1 == q
      · simp [cacheSet, cacheLookup, hk, hpq]
      · simp only [cacheLookup, hpq, Bool.false_eq_true, if_false] at h
        simp [cacheSet, cacheLookup, hk, hpq, ih h]

/-- Helper: once the cache has been flushed, every later state of the batch
loop keeps the disk file equal to the in-memory dictionary. -/
theorem processWithCache_disk_eq_mem (agentFn : String → String)
    (items : List (String × String)) (st : CacheState)
    (h : st.disk = some st.mem) :
    (processWithCache agentFn items st).disk =
      some ((processWithCache agentFn items st).mem) := by
  induction items generalizing st with
  | nil => simpa [processWithCache] using h
  | cons x rest ih =>
    obtain ⟨tid, q⟩ := x
    exact ih ⟨cacheSet st.mem tid (agentFn q), some (cacheSet st.mem tid (agentFn q))⟩ rfl

/-- C2 (spec-modelled): the batch/cache loop records each item's (task id,
answer) pair in the cache dictionary (the lookup after processing an item
returns that item's answer), never evicts an entry (any key readable before
the loop is still readable after it), and flushes the cache to the JSON file
after every item (after any non-empty item list the disk contents equal the
in-memory dictionary; the loop's state after `k` items is the run on the
length-`k` item list, so this covers every step). -/
theorem processWithCache_records_and_flushes (agentFn : String → String) :
    (∀ st pre tid q,
      cacheLookup ((processWithCache agentFn (pre ++ [(tid, q)]) st).mem) tid =
        some (agentFn q)) ∧
    (∀ st items k, (cacheLookup st.mem k).isSome = true →
      (cacheLookup ((processWithCache agentFn items st).mem) k).isSome = true) ∧
    (∀ st x items,
      (processWithCache agentFn (x :: items) st).disk =
        some ((processWithCache agentFn (x :: items) st).mem)) := by
  refine ⟨?_, ?_, ?_⟩
  · intro st pre
    induction pre generalizing st with
    | nil =>
      intro tid q
      simpa [processWithCache] using cacheLookup_cacheSet_self st.mem tid (agentFn q)
    | cons x rest ih =>
      intro tid q
      obtain ⟨t0, q0⟩ := x
      simpa [processWithCache] using
        ih ⟨cacheSet st.mem t0 (agentFn q0), some (cacheSet st.mem t0 (agentFn q0))⟩ tid q
  · intro st items
    induction items generalizing st with
    | nil =>
      intro k h
      simpa [processWithCache] using h
    | cons x rest ih =>
      intro k h
      obtain ⟨t0, q0⟩ := x
      exact ih ⟨cacheSet st.mem t0 (agentFn q0), some (cacheSet st.mem t0 (agentFn q0))⟩ k
        (cacheLookup_cacheSet_isSome st.mem t0 (agentFn q0) k h)
  · intro st x items
    obtain ⟨t0, q0⟩ := x
    exact processWithCache_disk_eq_mem agentFn items
      ⟨cacheSet st.mem t0 (agentFn q0), some (cacheSet st.mem t0 (agentFn q0))⟩ rfl
